import Mathlib

/-!
Verification of the vk_mini_path_tracer compute pipeline (src/_edit/main.cpp,
src/_edit/common.h) against its natural-language specification.

The program is a single sequential `main` that performs one offline GPU
compute pass.  We embed it shallowly as a trace-producing function: each
Vulkan / nvvk call that `main` performs in program order becomes one `Event`
in a list, and the two `assert`s become early termination with an error code.
Pure data constructed by `main` (the workgroup grid, the descriptor table,
the BLAS geometry descriptor) is embedded as ordinary Lean definitions.
-/

namespace VkMiniPathTracer

/-! ### Constants from common.h -/

/-- common.h line 15: `#define WORKGROUP_WIDTH 16`. -/
def WORKGROUP_WIDTH : Nat := 16

/-- common.h line 16: `#define WORKGROUP_HEIGHT 8`. -/
def WORKGROUP_HEIGHT : Nat := 8

/-- common.h line 18: `#define BINDING_IMAGEDATA 0`. -/
def BINDING_IMAGEDATA : Nat := 0

/-- common.h line 19: `#define BINDING_TLAS 1`. -/
def BINDING_TLAS : Nat := 1

/-- common.h line 20: `#define BINDING_VERTICES 2`. -/
def BINDING_VERTICES : Nat := 2

/-- common.h line 21: `#define BINDING_INDICES 3`. -/
def BINDING_INDICES : Nat := 3

/-- Modelled from the spec: `RENDER_WIDTH` is used by main.cpp (lines 77, 260,
280) but its `#define` is not among the provided sources; the spec fixes the
render dimensions through its workgroup-grid example
`computeGrid(800,600,16,8) = (50,75)` together with the 16×8 tile constant. -/
def RENDER_WIDTH : Nat := 800

/-- Modelled from the spec: `RENDER_HEIGHT`, see `RENDER_WIDTH`. -/
def RENDER_HEIGHT : Nat := 600

/-- Byte count of a C `float`, as used by `sizeof(float)` in main.cpp. -/
def sizeofFloat : Nat := 4

/-- main.cpp line 77:
`VkDeviceSize bufferSizeBytes = RENDER_WIDTH * RENDER_HEIGHT * 3 * sizeof(float);`. -/
def bufferSizeBytes : Nat := RENDER_WIDTH * RENDER_HEIGHT * 3 * sizeofFloat

/-! ### Workgroup grid

main.cpp line 260 dispatches
`(uint32_t(RENDER_WIDTH) + WORKGROUP_WIDTH - 1) / WORKGROUP_WIDTH` workgroups
in x and the analogous quantity in y.  Following the spec's `computeGrid`
signature we keep the image and tile dimensions as parameters; the dispatch
site instantiates them with the constants above. -/

/-- Workgroup-grid computation: the integer expression
`(size + tile - 1) / tile` from main.cpp line 260, in both dimensions. -/
def computeGrid (imageWidth imageHeight tileWidth tileHeight : Nat) : Nat × Nat :=
  ((imageWidth + tileWidth - 1) / tileWidth, (imageHeight + tileHeight - 1) / tileHeight)

/-- Helper: for positive `w` and `t`, the integer expression `(w + t - 1) / t`
is the mathematical ceiling of `w / t`. -/
theorem add_pred_div_eq_ceil (w t : Nat) (hw : 0 < w) (ht : 0 < t) :
    (((w + t - 1) / t : Nat) : ℤ) = ⌈(w : ℚ) / (t : ℚ)⌉ := by
  have htq : (0 : ℚ) < (t : ℚ) := by exact_mod_cast ht
  set q : Nat := (w + t - 1) / t with hqdef
  have hdm : t * q + (w + t - 1) % t = w + t - 1 := Nat.div_add_mod (w + t - 1) t
  have hrlt : (w + t - 1) % t < t := Nat.mod_lt _ ht
  have hub : w ≤ t * q := by omega
  have hlb : t * q < w + t := by omega
  refine le_antisymm ?_ ?_
  · rw [Int.le_ceil_iff]
    push_cast
    rw [lt_div_iff₀ htq]
    have h1 : ((t : ℚ)) * (q : ℚ) < (w : ℚ) + (t : ℚ) := by exact_mod_cast hlb
    have h2 : ((q : ℚ) - 1) * (t : ℚ) = (t : ℚ) * (q : ℚ) - (t : ℚ) := by ring
    linarith [h1]
  · rw [Int.ceil_le]
    push_cast
    rw [div_le_iff₀ htq]
    have : (w : ℚ) ≤ (t : ℚ) * (q : ℚ) := by exact_mod_cast hub
    linarith [this]

/-! ### Machine-integer conversions

main.cpp stores sizes in `size_t` (64-bit) and truncates some of them to
`uint32_t` via `static_cast`; we model both with explicit modular
arithmetic on `Nat`/`Int`. -/

/-- C++ conversion of a signed `int` value to `uint32_t` (reduction modulo
`2^32`, yielding a value in `[0, 2^32)`). -/
def intToU32 (i : Int) : Nat := (i % (2 ^ 32 : Int)).toNat

/-- C++ evaluation of `n - 1` in `size_t` followed by `static_cast<uint32_t>`,
as performed on `objVertices.size() - 1` at main.cpp line 142. -/
def sizeTPredToU32 (n : Nat) : Nat :=
  ((((n : Int) - 1) % (2 ^ 64 : Int)) % (2 ^ 32 : Int)).toNat

/-! ### Mesh data (tinyobjloader interface, main.cpp lines 90-103) -/

/-- One element of `tinyobj::shape_t::mesh.indices` (`tinyobj::index_t`):
three signed indices into the attribute arrays. -/
structure ObjIndex where
  vertex_index : Int
  normal_index : Int
  texcoord_index : Int
deriving DecidableEq

/-- One `tinyobj::shape_t`, reduced to the data main.cpp reads from it:
its mesh's index list. -/
structure ObjShape where
  meshIndices : List ObjIndex
deriving DecidableEq

/-- main.cpp lines 98-103: `objIndices` is built by pushing
`index.vertex_index` (an `int`, implicitly converted to `uint32_t`) for each
mesh index, in order. -/
def objIndices (meshIndices : List ObjIndex) : List Nat :=
  meshIndices.map (fun index => intToU32 index.vertex_index)

/-! ### Buffers, descriptor table and writes (main.cpp lines 77-86, 186-226) -/

/-- The three buffers the program creates, named after the variables
`buffer`, `vertexBuffer`, `indexBuffer` in main.cpp. -/
inductive BufferId where
  | imageBuffer
  | vertexBuffer
  | indexBuffer
deriving DecidableEq

/-- Descriptor types used by the program (`VK_DESCRIPTOR_TYPE_STORAGE_BUFFER`
and `VK_DESCRIPTOR_TYPE_ACCELERATION_STRUCTURE_KHR`). -/
inductive DescriptorType where
  | storageBuffer
  | accelerationStructure
deriving DecidableEq

/-- Shader stage flags used by the program (`VK_SHADER_STAGE_COMPUTE_BIT`). -/
inductive ShaderStage where
  | compute
deriving DecidableEq

/-- One `addBinding` call on the `nvvk::DescriptorSetContainer`
(binding index, descriptor type, descriptor count, stage flags). -/
structure DescriptorBinding where
  binding : Nat
  descriptorType : DescriptorType
  descriptorCount : Nat
  stageFlags : ShaderStage
deriving DecidableEq

/-- main.cpp lines 187-190: the four `addBinding` calls, in program order. -/
def descriptorBindings : List DescriptorBinding :=
  [⟨BINDING_IMAGEDATA, .storageBuffer, 1, .compute⟩,
   ⟨BINDING_TLAS, .accelerationStructure, 1, .compute⟩,
   ⟨BINDING_VERTICES, .storageBuffer, 1, .compute⟩,
   ⟨BINDING_INDICES, .storageBuffer, 1, .compute⟩]

/-- A `VkDescriptorBufferInfo.range` value: either an explicit byte count or
`VK_WHOLE_SIZE`. -/
inductive BufRange where
  | bytes (n : Nat)
  | wholeSize
deriving DecidableEq

/-- The acceleration structures a descriptor write can reference; the program
only ever writes the TLAS returned by
`raytracingBuilder.getAccelerationStructure()` (main.cpp line 209). -/
inductive AccelRef where
  | tlas
deriving DecidableEq

/-- Payload of one `VkWriteDescriptorSet`: either a buffer descriptor
(`VkDescriptorBufferInfo`: buffer, offset, range) or an acceleration-structure
descriptor (`VkWriteDescriptorSetAccelerationStructureKHR`). -/
inductive WriteInfo where
  | bufferInfo (buffer : BufferId) (offset : Nat) (range : BufRange)
  | accelerationStructureInfo (count : Nat) (ref : AccelRef)
deriving DecidableEq

/-- One descriptor write made via `descriptorSetContainer.makeWrite`
(destination set index, destination binding, payload). -/
structure DescriptorWrite where
  dstSetIdx : Nat
  dstBinding : Nat
  info : WriteInfo
deriving DecidableEq

/-- main.cpp lines 201-222: the four `VkWriteDescriptorSet`s handed to
`vkUpdateDescriptorSets`.  `descriptorBufferInfo` is value-initialized
(`{}`), so its offset is 0, and its range is set to `bufferSizeBytes`
(line 205); the vertex and index writes leave offset 0 and use
`VK_WHOLE_SIZE` ranges (lines 214-222). -/
def writeDescriptorSets : List DescriptorWrite :=
  [⟨0, BINDING_IMAGEDATA, .bufferInfo .imageBuffer 0 (.bytes bufferSizeBytes)⟩,
   ⟨0, BINDING_TLAS, .accelerationStructureInfo 1 .tlas⟩,
   ⟨0, BINDING_VERTICES, .bufferInfo .vertexBuffer 0 .wholeSize⟩,
   ⟨0, BINDING_INDICES, .bufferInfo .indexBuffer 0 .wholeSize⟩]

/-! ### BLAS input (main.cpp lines 129-162) -/

/-- Vertex formats used by the program (`VK_FORMAT_R32G32B32_SFLOAT`). -/
inductive VertexFormat where
  | r32g32b32Sfloat
deriving DecidableEq

/-- Index types used by the program (`VK_INDEX_TYPE_UINT32`). -/
inductive IndexType where
  | uint32
deriving DecidableEq

/-- Geometry flags used by the program (`VK_GEOMETRY_OPAQUE_BIT_KHR`). -/
inductive GeometryFlags where
  | opaqueBit
deriving DecidableEq

/-- Geometry types used by the program (`VK_GEOMETRY_TYPE_TRIANGLES_KHR`). -/
inductive GeometryType where
  | trianglesType
deriving DecidableEq

/-- The fields of `VkAccelerationStructureGeometryTrianglesDataKHR` that
main.cpp sets (lines 138-145); device addresses are opaque `Nat`s. -/
structure TrianglesData where
  vertexFormat : VertexFormat
  vertexDataDeviceAddress : Nat
  vertexStride : Nat
  maxVertex : Nat
  indexType : IndexType
  indexDataDeviceAddress : Nat
  transformDataDeviceAddress : Nat
deriving DecidableEq

/-- A `VkAccelerationStructureGeometryKHR` as main.cpp fills it in
(lines 148-151). -/
structure Geometry where
  triangles : TrianglesData
  geometryType : GeometryType
  flags : GeometryFlags
deriving DecidableEq

/-- A `VkAccelerationStructureBuildRangeInfoKHR` (main.cpp lines 155-159). -/
structure BuildRangeInfo where
  firstVertex : Nat
  primitiveCount : Nat
  primitiveOffset : Nat
  transformOffset : Nat
deriving DecidableEq

/-- One `nvvk::RaytracingBuilderKHR::BlasInput`. -/
structure BlasInput where
  asGeometry : List Geometry
  asBuildOffsetInfo : List BuildRangeInfo
deriving DecidableEq

/-- main.cpp lines 131-161: construction of the single `BlasInput` from the
loaded OBJ data.  `objVerticesLen` is `objVertices.size()` (the number of
floats in the flat vertex-position array); `objIndicesList` is the
`objIndices` vector.  The source sets
`triangles.vertexStride = 3 * sizeof(float)`,
`triangles.maxVertex = static_cast<uint32_t>(objVertices.size() - 1)`,
`triangles.transformData.deviceAddress = 0`, and
`offsetInfo.primitiveCount = static_cast<uint32_t>(objIndices.size() / 3)`. -/
def blasInputOf (vertexBufferAddress indexBufferAddress : Nat)
    (objVerticesLen : Nat) (objIndicesList : List Nat) : BlasInput :=
  let triangles : TrianglesData :=
    { vertexFormat := .r32g32b32Sfloat
      vertexDataDeviceAddress := vertexBufferAddress
      vertexStride := 3 * sizeofFloat
      maxVertex := sizeTPredToU32 objVerticesLen
      indexType := .uint32
      indexDataDeviceAddress := indexBufferAddress
      transformDataDeviceAddress := 0 }
  let geometryInfo : Geometry :=
    { triangles := triangles
      geometryType := .trianglesType
      flags := .opaqueBit }
  let offsetInfo : BuildRangeInfo :=
    { firstVertex := 0
      primitiveCount := (objIndicesList.length / 3) % 2 ^ 32
      primitiveOffset := 0
      transformOffset := 0 }
  { asGeometry := [geometryInfo], asBuildOffsetInfo := [offsetInfo] }

/-- main.cpp line 130/161: the `blases` vector holds exactly the one
`BlasInput` built from the single OBJ shape. -/
def blases (vertexBufferAddress indexBufferAddress : Nat)
    (objVerticesLen : Nat) (meshIndices : List ObjIndex) : List BlasInput :=
  [blasInputOf vertexBufferAddress indexBufferAddress objVerticesLen
    (objIndices meshIndices)]

/-! ### Instances (main.cpp lines 170-179) -/

/-- Instance flags used by the program
(`VK_GEOMETRY_INSTANCE_TRIANGLE_FACING_CULL_DISABLE_BIT_KHR`). -/
inductive InstanceFlags where
  | triangleFacingCullDisable
deriving DecidableEq

/-- A 4×4 transform matrix (`nvmath::mat4f`), with exact rational entries. -/
def identityTransform : Fin 4 → Fin 4 → ℚ :=
  fun i j => if (i : Nat) = (j : Nat) then 1 else 0

/-- An `nvvk::RaytracingBuilderKHR::Instance` as main.cpp fills it in. -/
structure AsInstance where
  transform : Fin 4 → Fin 4 → ℚ
  instanceCustomId : Nat
  blasId : Nat
  hitGroupId : Nat
  flags : InstanceFlags

/-- main.cpp lines 170-179: the instance vector holds one instance with the
identity transform, custom id 0, `blasId` 0, hit group 0 and
facing-cull-disable flags. -/
def instances : List AsInstance :=
  [{ transform := identityTransform
     instanceCustomId := 0
     blasId := 0
     hitGroupId := 0
     flags := .triangleFacingCullDisable }]

/-! ### The event trace of `main`

Each externally visible call that `main` performs, in program order, becomes
one `Event`.  Command buffers are numbered in order of allocation: 0 is the
upload command buffer (main.cpp line 115), 1 is the compute-dispatch command
buffer (line 250).  The helper `EndSubmitWaitAndFreeCommandBuffer`
(lines 35-45) expands to end / submit / wait-idle / free; its `queueWaitIdle`
event is tagged with the command buffer whose submission the enclosing call
waits on.  `buildBlas` and `buildTlas` are single events because each call
blocks until the device has finished building (per the source comment at
main.cpp line 164: the builder "creates, records, ends, submits, and waits
for command buffers, indicating that CPU thread waits until GPU is done
building"). -/

/-- Pipeline stages appearing in the barrier at main.cpp lines 268-270. -/
inductive PipelineStage where
  | computeShader
  | host
deriving DecidableEq

/-- Access masks appearing in the barrier at main.cpp lines 266-267. -/
inductive AccessMask where
  | shaderWrite
  | hostRead
deriving DecidableEq

/-- One externally visible step of `main`, in program order. -/
inductive Event where
  | contextInit
  | allocatorInit
  | createBuffer (b : BufferId) (sizeBytes : Nat)
  | parseObj
  | createCommandPool
  | beginCommandBuffer (cb : Nat)
  | createBufferStaged (cb : Nat) (b : BufferId) (elemCount elemSizeBytes : Nat)
  | endCommandBuffer (cb : Nat)
  | queueSubmit (cb : Nat)
  | queueWaitIdle (cb : Nat)
  | freeCommandBuffer (cb : Nat)
  | finalizeAndReleaseStaging
  | raytracingBuilderSetup
  | buildBlas (blasCount : Nat)
  | buildTlas (instanceCount : Nat)
  | addBinding (binding : Nat) (ty : DescriptorType)
  | initLayout
  | initPool (maxSets : Nat)
  | initPipeLayout
  | updateDescriptorSets (writes : List DescriptorWrite)
  | createShaderModule
  | createComputePipeline
  | cmdBindPipeline (cb : Nat)
  | cmdBindDescriptorSets (cb : Nat)
  | cmdDispatch (cb groupsX groupsY groupsZ : Nat)
  | cmdPipelineBarrier (cb : Nat) (srcStage dstStage : PipelineStage)
      (srcAccess dstAccess : AccessMask)
  | mapBuffer (b : BufferId)
  | writeHdr (width height comps : Nat)
  | unmapBuffer (b : BufferId)
  | destroyPipeline
  | destroyShaderModule
  | descriptorSetContainerDeinit
  | raytracingBuilderDestroy
  | destroyBuffer (b : BufferId)
  | destroyCommandPool
  | allocatorDeinit
  | contextDeinit
deriving DecidableEq

/-- Abort causes, one per fatal check of `main` (named after the spec's
error taxonomy): the capability `assert` at main.cpp line 70, the
`reader.Valid()` `assert` at line 92, and the one-shape `assert` at
line 95. -/
inductive RunError where
  | capabilityMissing
  | meshParseFailed
  | unsupportedSceneLayout
deriving DecidableEq

/-- The environment-provided inputs `main` branches on or stores:
the two capability feature flags filled in by device creation, whether the
OBJ parse succeeded, the parsed shape list, the length of the flat
vertex-position float array, and the (opaque) device addresses of the two
uploaded geometry buffers. -/
structure RunInput where
  accelerationStructure : Bool
  rayQuery : Bool
  readerValid : Bool
  objShapes : List ObjShape
  objVerticesLen : Nat
  vertexBufferAddress : Nat
  indexBufferAddress : Nat

/-- Events of main.cpp lines 56-91: context creation, the capability check
having passed, allocator creation, output-image buffer creation, and the OBJ
parse.  This is the common prefix of every run that passes the capability
`assert`. -/
def prefixTrace : List Event :=
  [.contextInit, .allocatorInit,
   .createBuffer .imageBuffer bufferSizeBytes,
   .parseObj]

/-- main.cpp lines 35-45 (`EndSubmitWaitAndFreeCommandBuffer`): end the
command buffer, submit it, block in `vkQueueWaitIdle`, free it. -/
def endSubmitWaitAndFreeCommandBuffer (cb : Nat) : List Event :=
  [.endCommandBuffer cb, .queueSubmit cb, .queueWaitIdle cb,
   .freeCommandBuffer cb]

/-- The full event trace of a run in which every check passes
(main.cpp lines 56-293), with `shape` the single parsed OBJ shape. -/
def okTrace (inp : RunInput) (shape : ObjShape) : List Event :=
  prefixTrace ++
  [.createCommandPool,
   .beginCommandBuffer 0,
   .createBufferStaged 0 .vertexBuffer inp.objVerticesLen sizeofFloat,
   .createBufferStaged 0 .indexBuffer (objIndices shape.meshIndices).length 4] ++
  endSubmitWaitAndFreeCommandBuffer 0 ++
  [.finalizeAndReleaseStaging,
   .raytracingBuilderSetup,
   .buildBlas (blases inp.vertexBufferAddress inp.indexBufferAddress
       inp.objVerticesLen shape.meshIndices).length,
   .buildTlas instances.length,
   .addBinding BINDING_IMAGEDATA .storageBuffer,
   .addBinding BINDING_TLAS .accelerationStructure,
   .addBinding BINDING_VERTICES .storageBuffer,
   .addBinding BINDING_INDICES .storageBuffer,
   .initLayout,
   .initPool 1,
   .initPipeLayout,
   .updateDescriptorSets writeDescriptorSets,
   .createShaderModule,
   .createComputePipeline,
   .beginCommandBuffer 1,
   .cmdBindPipeline 1,
   .cmdBindDescriptorSets 1,
   .cmdDispatch 1 (computeGrid RENDER_WIDTH RENDER_HEIGHT WORKGROUP_WIDTH WORKGROUP_HEIGHT).1
     (computeGrid RENDER_WIDTH RENDER_HEIGHT WORKGROUP_WIDTH WORKGROUP_HEIGHT).2 1,
   .cmdPipelineBarrier 1 .computeShader .host .shaderWrite .hostRead] ++
  endSubmitWaitAndFreeCommandBuffer 1 ++
  [.mapBuffer .imageBuffer,
   .writeHdr RENDER_WIDTH RENDER_HEIGHT 3,
   .unmapBuffer .imageBuffer,
   .destroyPipeline,
   .destroyShaderModule,
   .descriptorSetContainerDeinit,
   .raytracingBuilderDestroy,
   .destroyBuffer .vertexBuffer,
   .destroyBuffer .indexBuffer,
   .destroyCommandPool,
   .destroyBuffer .imageBuffer,
   .allocatorDeinit,
   .contextDeinit]

/-- The run of `main` (main.cpp lines 54-293) on a given environment input:
the list of events performed, in order, together with the abort cause if one
of the fatal checks fired.  The checks fire in source order: the capability
`assert` (line 70, after context init but before the allocator and any
buffer creation), the `reader.Valid()` `assert` (line 92, after the
output-image buffer was created and the file parsed), then the
single-shape `assert` (line 95). -/
def mainRun (inp : RunInput) : List Event × Option RunError :=
  if inp.accelerationStructure && inp.rayQuery then
    if inp.readerValid then
      match inp.objShapes with
      | [shape] => (okTrace inp shape, none)
      | _ => (prefixTrace, some .unsupportedSceneLayout)
    else (prefixTrace, some .meshParseFailed)
  else ([.contextInit], some .capabilityMissing)

/-! ### Event classifiers -/

/-- Tests whether an event is the compute-dispatch command. -/
def isDispatchEvent : Event → Bool
  | .cmdDispatch _ _ _ _ => true
  | _ => false

/-- Tests whether an event is a pipeline-barrier command. -/
def isBarrierEvent : Event → Bool
  | .cmdPipelineBarrier _ _ _ _ _ => true
  | _ => false

/-- Tests whether an event is a queue submission of command buffer `cb`. -/
def isQueueSubmitOf (cb : Nat) : Event → Bool
  | .queueSubmit c => c == cb
  | _ => false

/-- Tests whether an event maps the output-image buffer. -/
def isMapImageBuffer : Event → Bool
  | .mapBuffer .imageBuffer => true
  | _ => false

/-- Tests whether an event is a staged buffer upload. -/
def isCreateBufferStaged : Event → Bool
  | .createBufferStaged _ _ _ _ => true
  | _ => false

/-- Tests whether an event allocates a device buffer (directly or via a
staged upload). -/
def isBufferAllocEvent : Event → Bool
  | .createBuffer _ _ => true
  | .createBufferStaged _ _ _ _ => true
  | _ => false

/-- Tests whether an event is the `finalizeAndReleaseStaging` call. -/
def isFinalizeStagingEvent : Event → Bool
  | .finalizeAndReleaseStaging => true
  | _ => false

/-- Tests whether an event is a BLAS build. -/
def isBuildBlasEvent : Event → Bool
  | .buildBlas _ => true
  | _ => false

/-- Tests whether an event is a TLAS build. -/
def isBuildTlasEvent : Event → Bool
  | .buildTlas _ => true
  | _ => false

/-- Tests whether an event destroys the acceleration structures
(`raytracingBuilder.destroy()`, which frees the TLAS and every BLAS in one
call). -/
def isBuilderDestroyEvent : Event → Bool
  | .raytracingBuilderDestroy => true
  | _ => false

/-- Tests whether an event deinitializes the descriptor-set container. -/
def isDescriptorDeinitEvent : Event → Bool
  | .descriptorSetContainerDeinit => true
  | _ => false

/-- Tests whether an event destroys an allocator-owned buffer. -/
def isDestroyBufferEvent : Event → Bool
  | .destroyBuffer _ => true
  | _ => false

/-! ### Normalization of successful runs -/

/-- A run in which both capability flags are present, the OBJ parse
succeeded, and the file holds exactly one shape produces the full `okTrace`
and no error. -/
theorem mainRun_ok (inp : RunInput) (shape : ObjShape)
    (hacc : inp.accelerationStructure = true) (hray : inp.rayQuery = true)
    (hvalid : inp.readerValid = true) (hshapes : inp.objShapes = [shape]) :
    mainRun inp = (okTrace inp shape, none) := by
  simp [mainRun, hacc, hray, hvalid, hshapes]

/-! ### Concrete sample run inputs (used by the witness theorems) -/

/-- A one-triangle OBJ shape: three mesh indices referencing vertices
0, 1, 2. -/
def sampleShape : ObjShape :=
  ⟨[⟨0, 0, 0⟩, ⟨1, 0, 0⟩, ⟨2, 0, 0⟩]⟩

/-- A fully valid sample environment: both capabilities present, a valid
parse of a single one-triangle shape with 3 vertices (9 floats). -/
def sampleInput : RunInput :=
  { accelerationStructure := true
    rayQuery := true
    readerValid := true
    objShapes := [sampleShape]
    objVerticesLen := 9
    vertexBufferAddress := 4096
    indexBufferAddress := 8192 }

/-- The sample environment with the acceleration-structure capability
absent. -/
def noCapInput : RunInput :=
  { sampleInput with accelerationStructure := false }

/-- The sample environment whose OBJ file parsed to zero shapes. -/
def noShapeInput : RunInput :=
  { sampleInput with objShapes := [] }

/-- Classifies a descriptor-write payload by the descriptor type it carries
(a `VkDescriptorBufferInfo` fills a storage-buffer slot here, a
`VkWriteDescriptorSetAccelerationStructureKHR` an acceleration-structure
slot). -/
def writeKind : WriteInfo → DescriptorType
  | .bufferInfo _ _ _ => .storageBuffer
  | .accelerationStructureInfo _ _ => .accelerationStructure

/-! ### Claims -/

/-- C1: in the compute pass's command buffer (command buffer 1), the event
recorded immediately after the dispatch (trace position 29) is the memory
barrier with source access shader-write, destination access host-read,
compute-shader source stage and host destination stage (position 30); that
context's submission is at position 32 and its blocking wait at position 33,
and the output buffer is mapped only at position 35, after the wait.  The
dispatch, the barrier, the submit of command buffer 1 and the map each occur
exactly once in the run. -/
theorem c1_barrier_after_dispatch_before_submit (inp : RunInput) (shape : ObjShape)
    (hacc : inp.accelerationStructure = true) (hray : inp.rayQuery = true)
    (hvalid : inp.readerValid = true) (hshapes : inp.objShapes = [shape]) :
    (mainRun inp).1.get? 29 =
        some (.cmdDispatch 1
          (computeGrid RENDER_WIDTH RENDER_HEIGHT WORKGROUP_WIDTH WORKGROUP_HEIGHT).1
          (computeGrid RENDER_WIDTH RENDER_HEIGHT WORKGROUP_WIDTH WORKGROUP_HEIGHT).2 1) ∧
    (mainRun inp).1.get? 30 =
        some (.cmdPipelineBarrier 1 .computeShader .host .shaderWrite .hostRead) ∧
    (mainRun inp).1.get? 32 = some (.queueSubmit 1) ∧
    (mainRun inp).1.get? 33 = some (.queueWaitIdle 1) ∧
    (mainRun inp).1.get? 35 = some (.mapBuffer .imageBuffer) ∧
    ((mainRun inp).1.filter isDispatchEvent).length = 1 ∧
    ((mainRun inp).1.filter isBarrierEvent).length = 1 ∧
    ((mainRun inp).1.filter (isQueueSubmitOf 1)).length = 1 ∧
    ((mainRun inp).1.filter isMapImageBuffer).length = 1 ∧
    ((mainRun inp).1.take 34).filter isMapImageBuffer = [] := by
  rw [mainRun_ok inp shape hacc hray hvalid hshapes]
  exact ⟨rfl, rfl, rfl, rfl, rfl, rfl, rfl, rfl, rfl, rfl⟩

/-- Witness for C1 at the sample input. -/
theorem c1_barrier_after_dispatch_before_submit_witness :
    (mainRun sampleInput).1.get? 29 =
        some (.cmdDispatch 1
          (computeGrid RENDER_WIDTH RENDER_HEIGHT WORKGROUP_WIDTH WORKGROUP_HEIGHT).1
          (computeGrid RENDER_WIDTH RENDER_HEIGHT WORKGROUP_WIDTH WORKGROUP_HEIGHT).2 1) ∧
    (mainRun sampleInput).1.get? 30 =
        some (.cmdPipelineBarrier 1 .computeShader .host .shaderWrite .hostRead) ∧
    (mainRun sampleInput).1.get? 32 = some (.queueSubmit 1) ∧
    (mainRun sampleInput).1.get? 33 = some (.queueWaitIdle 1) ∧
    (mainRun sampleInput).1.get? 35 = some (.mapBuffer .imageBuffer) ∧
    ((mainRun sampleInput).1.filter isDispatchEvent).length = 1 ∧
    ((mainRun sampleInput).1.filter isBarrierEvent).length = 1 ∧
    ((mainRun sampleInput).1.filter (isQueueSubmitOf 1)).length = 1 ∧
    ((mainRun sampleInput).1.filter isMapImageBuffer).length = 1 ∧
    ((mainRun sampleInput).1.take 34).filter isMapImageBuffer = [] :=
  c1_barrier_after_dispatch_before_submit sampleInput sampleShape rfl rfl rfl rfl

/-- C2: the workgroup-grid expression `(size + tile - 1) / tile` from the
dispatch (main.cpp line 260) is exact ceiling division for every choice of
positive image and tile dimensions, and in particular
`computeGrid 800 600 16 8 = (50, 75)` and
`computeGrid 801 600 16 8 = (51, 75)`. -/
theorem c2_computeGrid_exact_ceiling (w h tw th : Nat)
    (hw : 0 < w) (hh : 0 < h) (htw : 0 < tw) (hth : 0 < th) :
    (((computeGrid w h tw th).1 : ℤ) = ⌈(w : ℚ) / (tw : ℚ)⌉ ∧
     ((computeGrid w h tw th).2 : ℤ) = ⌈(h : ℚ) / (th : ℚ)⌉) ∧
    computeGrid 800 600 16 8 = (50, 75) ∧
    computeGrid 801 600 16 8 = (51, 75) :=
  ⟨⟨add_pred_div_eq_ceil w tw hw htw, add_pred_div_eq_ceil h th hh hth⟩,
   by decide, by decide⟩

/-- Witness for C2 at the render dimensions 800×600 and the 16×8 tile. -/
theorem c2_computeGrid_exact_ceiling_witness :
    ((0 : Nat) < 800 ∧ (0 : Nat) < 600 ∧ (0 : Nat) < 16 ∧ (0 : Nat) < 8) ∧
    ((((computeGrid 800 600 16 8).1 : ℤ) = ⌈((800 : Nat) : ℚ) / ((16 : Nat) : ℚ)⌉ ∧
      ((computeGrid 800 600 16 8).2 : ℤ) = ⌈((600 : Nat) : ℚ) / ((8 : Nat) : ℚ)⌉) ∧
     computeGrid 800 600 16 8 = (50, 75) ∧
     computeGrid 801 600 16 8 = (51, 75)) :=
  ⟨⟨by decide, by decide, by decide, by decide⟩,
    c2_computeGrid_exact_ceiling 800 600 16 8
      (by decide) (by decide) (by decide) (by decide)⟩

/-- C3: the binding table declares exactly the four slots
(0, storage buffer), (1, acceleration structure), (2, storage buffer),
(3, storage buffer) in that order; the descriptor writes use the same slot
indices in the same order, each write's payload kind agrees with the
declared slot kind, and the payloads bind the output-image buffer at slot 0,
the TLAS at slot 1, the vertex buffer at slot 2 and the index buffer at
slot 3. -/
theorem c3_binding_table_layout :
    descriptorBindings.map (fun b => (b.binding, b.descriptorType)) =
      [(0, .storageBuffer), (1, .accelerationStructure),
       (2, .storageBuffer), (3, .storageBuffer)] ∧
    descriptorBindings.length = 4 ∧
    writeDescriptorSets.map DescriptorWrite.dstBinding =
      descriptorBindings.map DescriptorBinding.binding ∧
    writeDescriptorSets.map (fun wr => writeKind wr.info) =
      descriptorBindings.map DescriptorBinding.descriptorType ∧
    writeDescriptorSets.map DescriptorWrite.info =
      [.bufferInfo .imageBuffer 0 (.bytes bufferSizeBytes),
       .accelerationStructureInfo 1 .tlas,
       .bufferInfo .vertexBuffer 0 .wholeSize,
       .bufferInfo .indexBuffer 0 .wholeSize] := by
  refine ⟨by decide, by decide, by decide, by decide, by decide⟩

/-- C4: teardown order.  The descriptor-set container is deinitialized at
trace position 40, the builder's acceleration structures (TLAS and BLAS
together, in the builder's single destroy call) at 41, the allocator-owned
buffers at 42, 43 and 45, the allocator itself at 46, and the device context
at position 47 — the final event of the 48-event trace.  The
descriptor-container deinit and the builder destroy each occur exactly once,
and no buffer-destroy event precedes position 42. -/
theorem c4_teardown_reverse_dependency_order (inp : RunInput) (shape : ObjShape)
    (hacc : inp.accelerationStructure = true) (hray : inp.rayQuery = true)
    (hvalid : inp.readerValid = true) (hshapes : inp.objShapes = [shape]) :
    (mainRun inp).1.get? 40 = some .descriptorSetContainerDeinit ∧
    (mainRun inp).1.get? 41 = some .raytracingBuilderDestroy ∧
    (mainRun inp).1.get? 42 = some (.destroyBuffer .vertexBuffer) ∧
    (mainRun inp).1.get? 43 = some (.destroyBuffer .indexBuffer) ∧
    (mainRun inp).1.get? 45 = some (.destroyBuffer .imageBuffer) ∧
    (mainRun inp).1.get? 46 = some .allocatorDeinit ∧
    (mainRun inp).1.get? 47 = some .contextDeinit ∧
    (mainRun inp).1.length = 48 ∧
    ((mainRun inp).1.filter isDescriptorDeinitEvent).length = 1 ∧
    ((mainRun inp).1.filter isBuilderDestroyEvent).length = 1 ∧
    (mainRun inp).1.filter isDestroyBufferEvent =
      [.destroyBuffer .vertexBuffer, .destroyBuffer .indexBuffer,
       .destroyBuffer .imageBuffer] ∧
    ((mainRun inp).1.take 42).filter isDestroyBufferEvent = [] := by
  rw [mainRun_ok inp shape hacc hray hvalid hshapes]
  exact ⟨rfl, rfl, rfl, rfl, rfl, rfl, rfl, rfl, rfl, rfl, rfl, rfl⟩

/-- Witness for C4 at the sample input. -/
theorem c4_teardown_reverse_dependency_order_witness :
    (mainRun sampleInput).1.get? 40 = some .descriptorSetContainerDeinit ∧
    (mainRun sampleInput).1.get? 41 = some .raytracingBuilderDestroy ∧
    (mainRun sampleInput).1.get? 42 = some (.destroyBuffer .vertexBuffer) ∧
    (mainRun sampleInput).1.get? 43 = some (.destroyBuffer .indexBuffer) ∧
    (mainRun sampleInput).1.get? 45 = some (.destroyBuffer .imageBuffer) ∧
    (mainRun sampleInput).1.get? 46 = some .allocatorDeinit ∧
    (mainRun sampleInput).1.get? 47 = some .contextDeinit ∧
    (mainRun sampleInput).1.length = 48 ∧
    ((mainRun sampleInput).1.filter isDescriptorDeinitEvent).length = 1 ∧
    ((mainRun sampleInput).1.filter isBuilderDestroyEvent).length = 1 ∧
    (mainRun sampleInput).1.filter isDestroyBufferEvent =
      [.destroyBuffer .vertexBuffer, .destroyBuffer .indexBuffer,
       .destroyBuffer .imageBuffer] ∧
    ((mainRun sampleInput).1.take 42).filter isDestroyBufferEvent = [] :=
  c4_teardown_reverse_dependency_order sampleInput sampleShape rfl rfl rfl rfl

/-- C5: the output-image buffer is created with exactly
`RENDER_WIDTH * RENDER_HEIGHT * 3 * sizeof(float)` bytes (trace position 2),
and the descriptor write at slot 0 binds that same buffer with offset 0 and
a range of exactly that byte count; the descriptor update at trace
position 23 commits exactly those four writes. -/
theorem c5_image_buffer_size_and_descriptor_range (inp : RunInput) (shape : ObjShape)
    (hacc : inp.accelerationStructure = true) (hray : inp.rayQuery = true)
    (hvalid : inp.readerValid = true) (hshapes : inp.objShapes = [shape]) :
    (mainRun inp).1.get? 2 =
      some (.createBuffer .imageBuffer (RENDER_WIDTH * RENDER_HEIGHT * 3 * sizeofFloat)) ∧
    bufferSizeBytes = RENDER_WIDTH * RENDER_HEIGHT * 3 * sizeofFloat ∧
    writeDescriptorSets.get? 0 =
      some ⟨0, BINDING_IMAGEDATA,
        .bufferInfo .imageBuffer 0 (.bytes (RENDER_WIDTH * RENDER_HEIGHT * 3 * sizeofFloat))⟩ ∧
    (mainRun inp).1.get? 23 = some (.updateDescriptorSets writeDescriptorSets) ∧
    ((mainRun inp).1.filter isBufferAllocEvent).length = 3 := by
  rw [mainRun_ok inp shape hacc hray hvalid hshapes]
  exact ⟨rfl, rfl, rfl, rfl, rfl⟩

/-- Witness for C5 at the sample input. -/
theorem c5_image_buffer_size_and_descriptor_range_witness :
    (mainRun sampleInput).1.get? 2 =
      some (.createBuffer .imageBuffer (RENDER_WIDTH * RENDER_HEIGHT * 3 * sizeofFloat)) ∧
    bufferSizeBytes = RENDER_WIDTH * RENDER_HEIGHT * 3 * sizeofFloat ∧
    writeDescriptorSets.get? 0 =
      some ⟨0, BINDING_IMAGEDATA,
        .bufferInfo .imageBuffer 0 (.bytes (RENDER_WIDTH * RENDER_HEIGHT * 3 * sizeofFloat))⟩ ∧
    (mainRun sampleInput).1.get? 23 = some (.updateDescriptorSets writeDescriptorSets) ∧
    ((mainRun sampleInput).1.filter isBufferAllocEvent).length = 3 :=
  c5_image_buffer_size_and_descriptor_range sampleInput sampleShape rfl rfl rfl rfl

/-- C6: with both capabilities present and a successful parse, a shape count
different from one aborts the run with `unsupportedSceneLayout` and no
staged geometry upload is ever recorded, while a shape count of exactly one
lets the run complete without error. -/
theorem c6_single_shape_required (inp : RunInput)
    (hacc : inp.accelerationStructure = true) (hray : inp.rayQuery = true)
    (hvalid : inp.readerValid = true) :
    (inp.objShapes.length ≠ 1 →
      (mainRun inp).2 = some .unsupportedSceneLayout ∧
      (mainRun inp).1.filter isCreateBufferStaged = []) ∧
    (inp.objShapes.length = 1 → (mainRun inp).2 = none) := by
  constructor
  · intro hne
    match hsh : inp.objShapes with
    | [] => simp [mainRun, hacc, hray, hvalid, hsh]; decide
    | [s] => rw [hsh] at hne; simp at hne
    | s :: s2 :: rest => simp [mainRun, hacc, hray, hvalid, hsh]; decide
  · intro hone
    match hsh : inp.objShapes with
    | [] => rw [hsh] at hone; simp at hone
    | [s] => simp [mainRun, hacc, hray, hvalid, hsh]
    | s :: s2 :: rest => rw [hsh] at hone; simp at hone

/-- Witness for C6: a zero-shape parse aborts with `unsupportedSceneLayout`
and uploads nothing; the one-shape sample run completes without error. -/
theorem c6_single_shape_required_witness :
    ((mainRun noShapeInput).2 = some .unsupportedSceneLayout ∧
     (mainRun noShapeInput).1.filter isCreateBufferStaged = []) ∧
    (mainRun sampleInput).2 = none :=
  ⟨(c6_single_shape_required noShapeInput rfl rfl rfl).1 (by decide),
   (c6_single_shape_required sampleInput rfl rfl rfl).2 (by decide)⟩

/-- C7: if either capability flag is absent, the run aborts with
`capabilityMissing` having performed only the context initialization — in
particular no buffer allocation of any kind; if both flags are present the
run never aborts with `capabilityMissing`. -/
theorem c7_capability_check_before_allocation (inp : RunInput) :
    ((inp.accelerationStructure = false ∨ inp.rayQuery = false) →
      (mainRun inp).2 = some .capabilityMissing ∧
      (mainRun inp).1 = [.contextInit] ∧
      (mainRun inp).1.filter isBufferAllocEvent = []) ∧
    (inp.accelerationStructure = true → inp.rayQuery = true →
      (mainRun inp).2 ≠ some .capabilityMissing) := by
  constructor
  · intro hmiss
    have hcond : (inp.accelerationStructure && inp.rayQuery) = false := by
      rcases hmiss with h | h <;> simp [h]
    refine ⟨by simp [mainRun, hcond], by simp [mainRun, hcond],
      by simp [mainRun, hcond]; decide⟩
  · intro hacc hray
    simp only [mainRun, hacc, hray, Bool.and_self, if_true]
    cases hvalid : inp.readerValid
    · simp
    · simp only [if_true]
      match hsh : inp.objShapes with
      | [] => simp
      | [s] => simp
      | s :: s2 :: rest => simp

/-- Witness for C7: the capability-missing sample aborts immediately after
context init with no allocations; the fully valid sample does not abort with
`capabilityMissing`. -/
theorem c7_capability_check_before_allocation_witness :
    ((mainRun noCapInput).2 = some .capabilityMissing ∧
     (mainRun noCapInput).1 = [.contextInit] ∧
     (mainRun noCapInput).1.filter isBufferAllocEvent = []) ∧
    (mainRun sampleInput).2 ≠ some .capabilityMissing :=
  ⟨(c7_capability_check_before_allocation noCapInput).1 (Or.inl rfl),
   (c7_capability_check_before_allocation sampleInput).2 rfl rfl⟩

/-- C8: the single `finalizeAndReleaseStaging` call of the run (trace
position 12) happens after the upload command buffer (command buffer 0) has
been ended (position 8), submitted (position 9) and blocked on
(`vkQueueWaitIdle`, position 10); both staged uploads of the batch are
recorded into command buffer 0 and appear before position 8 — no staged
upload is recorded anywhere after it. -/
theorem c8_finalize_staging_once_after_upload_wait (inp : RunInput) (shape : ObjShape)
    (hacc : inp.accelerationStructure = true) (hray : inp.rayQuery = true)
    (hvalid : inp.readerValid = true) (hshapes : inp.objShapes = [shape]) :
    (mainRun inp).1.get? 12 = some .finalizeAndReleaseStaging ∧
    ((mainRun inp).1.filter isFinalizeStagingEvent).length = 1 ∧
    (mainRun inp).1.get? 8 = some (.endCommandBuffer 0) ∧
    (mainRun inp).1.get? 9 = some (.queueSubmit 0) ∧
    (mainRun inp).1.get? 10 = some (.queueWaitIdle 0) ∧
    (mainRun inp).1.filter isCreateBufferStaged =
      [.createBufferStaged 0 .vertexBuffer inp.objVerticesLen sizeofFloat,
       .createBufferStaged 0 .indexBuffer (objIndices shape.meshIndices).length 4] ∧
    ((mainRun inp).1.drop 8).filter isCreateBufferStaged = [] := by
  rw [mainRun_ok inp shape hacc hray hvalid hshapes]
  exact ⟨rfl, rfl, rfl, rfl, rfl, rfl, rfl⟩

/-- Witness for C8 at the sample input. -/
theorem c8_finalize_staging_once_after_upload_wait_witness :
    (mainRun sampleInput).1.get? 12 = some .finalizeAndReleaseStaging ∧
    ((mainRun sampleInput).1.filter isFinalizeStagingEvent).length = 1 ∧
    (mainRun sampleInput).1.get? 8 = some (.endCommandBuffer 0) ∧
    (mainRun sampleInput).1.get? 9 = some (.queueSubmit 0) ∧
    (mainRun sampleInput).1.get? 10 = some (.queueWaitIdle 0) ∧
    (mainRun sampleInput).1.filter isCreateBufferStaged =
      [.createBufferStaged 0 .vertexBuffer 9 4,
       .createBufferStaged 0 .indexBuffer 3 4] ∧
    ((mainRun sampleInput).1.drop 8).filter isCreateBufferStaged = [] :=
  c8_finalize_staging_once_after_upload_wait sampleInput sampleShape rfl rfl rfl rfl

/-- C9: the single BLAS build (trace position 14, a call that blocks until
the device finishes) precedes the single TLAS build (position 15; no TLAS
build occurs before position 14), and every instance handed to the TLAS
build references a valid index into the one-element list of built BLASes
(`blasId` 0 into a list of length 1). -/
theorem c9_blas_build_precedes_tlas_build (inp : RunInput) (shape : ObjShape)
    (hacc : inp.accelerationStructure = true) (hray : inp.rayQuery = true)
    (hvalid : inp.readerValid = true) (hshapes : inp.objShapes = [shape]) :
    (mainRun inp).1.get? 14 = some (.buildBlas 1) ∧
    (mainRun inp).1.get? 15 = some (.buildTlas 1) ∧
    ((mainRun inp).1.filter isBuildBlasEvent).length = 1 ∧
    ((mainRun inp).1.filter isBuildTlasEvent).length = 1 ∧
    ((mainRun inp).1.take 15).filter isBuildTlasEvent = [] ∧
    instances.map AsInstance.blasId = [0] ∧
    (blases inp.vertexBufferAddress inp.indexBufferAddress inp.objVerticesLen
      shape.meshIndices).length = 1 := by
  rw [mainRun_ok inp shape hacc hray hvalid hshapes]
  exact ⟨rfl, rfl, rfl, rfl, rfl, rfl, rfl⟩

/-- Witness for C9 at the sample input. -/
theorem c9_blas_build_precedes_tlas_build_witness :
    (mainRun sampleInput).1.get? 14 = some (.buildBlas 1) ∧
    (mainRun sampleInput).1.get? 15 = some (.buildTlas 1) ∧
    ((mainRun sampleInput).1.filter isBuildBlasEvent).length = 1 ∧
    ((mainRun sampleInput).1.filter isBuildTlasEvent).length = 1 ∧
    ((mainRun sampleInput).1.take 15).filter isBuildTlasEvent = [] ∧
    instances.map AsInstance.blasId = [0] ∧
    (blases sampleInput.vertexBufferAddress sampleInput.indexBufferAddress
      sampleInput.objVerticesLen sampleShape.meshIndices).length = 1 :=
  c9_blas_build_precedes_tlas_build sampleInput sampleShape rfl rfl rfl rfl

/-- C10: for a mesh whose flat vertex-position array holds `F` floats and
whose index list is `ms`, the BLAS input built by main.cpp has vertex stride
`3 * sizeof(float)`, an identity per-geometry transform (transform device
address 0), `maxVertex = F - 1` (the float-array length minus one, not the
vertex count minus one), primitive count `ms.length / 3`, and an index array
that copies, in order, exactly the `vertex_index` field of each mesh
index. -/
theorem c10_blas_input_fields (va ia F : Nat) (ms : List ObjIndex)
    (hF1 : 1 ≤ F) (hF2 : F ≤ 2 ^ 32) (hI : ms.length / 3 < 2 ^ 32)
    (hix : ∀ ix ∈ ms, 0 ≤ ix.vertex_index ∧ ix.vertex_index < 2 ^ 32) :
    (blasInputOf va ia F (objIndices ms)).asGeometry =
      [{ triangles :=
           { vertexFormat := .r32g32b32Sfloat
             vertexDataDeviceAddress := va
             vertexStride := 3 * sizeofFloat
             maxVertex := F - 1
             indexType := .uint32
             indexDataDeviceAddress := ia
             transformDataDeviceAddress := 0 }
         geometryType := .trianglesType
         flags := .opaqueBit }] ∧
    (blasInputOf va ia F (objIndices ms)).asBuildOffsetInfo =
      [{ firstVertex := 0
         primitiveCount := ms.length / 3
         primitiveOffset := 0
         transformOffset := 0 }] ∧
    objIndices ms = ms.map (fun ix => ix.vertex_index.toNat) := by
  have hmv : sizeTPredToU32 F = F - 1 := by
    unfold sizeTPredToU32
    omega
  have hlen : (objIndices ms).length = ms.length := by
    rw [objIndices, List.length_map]
  refine ⟨?_, ?_, ?_⟩
  · simp [blasInputOf, hmv]
  · simp [blasInputOf, hlen]
    omega
  · unfold objIndices
    apply List.map_congr_left
    intro ix hmem
    have h := hix ix hmem
    unfold intToU32
    omega

/-- Witness for C10 at the one-triangle sample mesh (9 floats, indices
0, 1, 2). -/
theorem c10_blas_input_fields_witness :
    (blasInputOf 4096 8192 9 (objIndices sampleShape.meshIndices)).asGeometry =
      [{ triangles :=
           { vertexFormat := .r32g32b32Sfloat
             vertexDataDeviceAddress := 4096
             vertexStride := 12
             maxVertex := 8
             indexType := .uint32
             indexDataDeviceAddress := 8192
             transformDataDeviceAddress := 0 }
         geometryType := .trianglesType
         flags := .opaqueBit }] ∧
    (blasInputOf 4096 8192 9 (objIndices sampleShape.meshIndices)).asBuildOffsetInfo =
      [{ firstVertex := 0
         primitiveCount := 1
         primitiveOffset := 0
         transformOffset := 0 }] ∧
    objIndices sampleShape.meshIndices =
      sampleShape.meshIndices.map (fun ix => ix.vertex_index.toNat) :=
  c10_blas_input_fields 4096 8192 9 sampleShape.meshIndices
    (by decide) (by decide) (by decide) (by decide)

end VkMiniPathTracer
